import Mathlib

/-!
Verification of the dapr sentry certificate-signing server
(`pkg/sentry/server/server.go`, embedded here from `src/unnamed/part_000`)
and of `GetCertChain` (`src/pkg/runtime/security/security.go`).

The pipeline of `signCertificate` is embedded as a pure Lean function over
an explicit dependency record: the external library calls (PEM decoding,
PKCS#10 parsing, signature checking, chain encoding) and the process-wide
current-namespace value are fields of `Deps`, the validator map and the
certificate-authority signer are fields of `Server`.  Calls to the
validator and to the certificate authority are recorded in an event trace
so that "never invoked" claims are statable.  Monitoring counters of the
`SignCertificate` dispatcher are recorded as a separate trace.
-/

namespace Sentry

/-- Modelled from the spec: `SignCertificateRequest_TokenValidator` is a
closed proto enumeration with an explicit "unspecified" sentinel `UNKNOWN`
(the proto definition is not under `src/`; the concrete named alternatives
are immaterial to the claims). -/
inductive TokenValidator where
  | UNKNOWN
  | JWKS
  | KUBERNETES
  | INSECURE
  deriving DecidableEq, Repr, BEq

/-- Modelled from the spec: the generated proto `String()` method returns
the (non-empty) name of each enumeration value. -/
def TokenValidator.str : TokenValidator → String
  | .UNKNOWN => "UNKNOWN"
  | .JWKS => "JWKS"
  | .KUBERNETES => "KUBERNETES"
  | .INSECURE => "INSECURE"

/-- The fields of `sentryv1pb.SignCertificateRequest` read by the server:
`Id`, `Namespace`, `CertificateSigningRequest` (raw bytes) and
`TokenValidator`. -/
structure SignCertificateRequest where
  Id : String
  Namespace : String
  CertificateSigningRequest : List Nat
  TokenValidator : TokenValidator
  deriving Repr

/-- A decoded PEM block (`pem.Block`): its type string and its payload
bytes. -/
structure PemBlock where
  blockType : String
  blockBytes : List Nat
  deriving DecidableEq, Repr

/-- The fields of a parsed `x509.CertificateRequest` that `signCertificate`
reads: the embedded public key and the declared signature algorithm (both
opaque to the server, modelled as raw data). -/
structure CertificateRequest where
  PublicKey : List Nat
  SignatureAlgorithm : Nat
  deriving DecidableEq, Repr

/-- The field of an `x509.Certificate` that `signCertificate` reads:
`NotAfter`, the expiry timestamp (seconds). -/
structure Cert where
  NotAfter : Int
  deriving DecidableEq, Repr

/-- `ca.SignRequest`, the fully-resolved request handed to the certificate
authority. -/
structure SignRequest where
  PublicKey : List Nat
  SignatureAlgorithm : Nat
  TrustDomain : String
  Namespace : String
  AppID : String
  DNS : List String
  deriving DecidableEq, Repr

/-- `sentryv1pb.SignCertificateResponse`: the PEM-encoded workload chain,
the legacy trust-chain field, and the valid-until timestamp. -/
structure SignCertificateResponse where
  WorkloadCertificate : List Nat
  TrustChainCertificates : List (List Nat)
  ValidUntil : Int
  deriving DecidableEq, Repr

/-- The gRPC status codes used by the server. -/
inductive Code where
  | InvalidArgument
  | PermissionDenied
  | Internal
  deriving DecidableEq, Repr

/-- Outcome of one `signCertificate` call: a response with nil error, a
nil response with a status error, or a runtime panic (out-of-range
indexing). -/
inductive Outcome where
  | ok (resp : SignCertificateResponse)
  | err (code : Code) (msg : String)
  | panicked (msg : String)
  deriving DecidableEq, Repr

/-- A pluggable validator (`validator.Validator`): `Validate` returns the
caller's trust domain (already stringified) or a rejection error. -/
structure Validator where
  Validate : SignCertificateRequest → Except String String

/-- The certificate-authority collaborator (`ca.Signer`): `SignIdentity`
returns a leaf-first certificate chain or an error; `TrustAnchors` returns
the trust-anchor bytes. -/
structure CASigner where
  SignIdentity : SignRequest → Except String (List Cert)
  TrustAnchors : List Nat

/-- The external library calls and process-wide values `signCertificate`
depends on: `security.CurrentNamespace()`, `pem.Decode`,
`x509.ParseCertificateRequest` (error text on failure),
`csr.CheckSignature()` (`some e` models a non-nil error), and
`secpem.EncodeX509Chain`. -/
structure Deps where
  currentNamespace : String
  pemDecode : List Nat → Option PemBlock
  parseCertificateRequest : List Nat → Except String CertificateRequest
  checkSignature : CertificateRequest → Option String
  encodeX509Chain : List Cert → Except String (List Nat)

/-- The `server` struct: the validator map, the default validator kind and
the certificate authority. -/
structure Server where
  vals : List (TokenValidator × Validator)
  defaultValidator : TokenValidator
  ca : CASigner

/-- Trace events for the collaborator calls `signCertificate` makes: one
event per `Validate` call and one per `SignIdentity` call. -/
inductive CallEvent where
  | validateCall (kind : TokenValidator)
  | caSign (sreq : SignRequest)
  deriving DecidableEq, Repr

/-- Lines 110-113 of the server: start from the default validator and
overwrite it with the requested one when that is not the `UNKNOWN`
sentinel and its name string is non-empty. -/
def resolveValidator (dflt requested : TokenValidator) : TokenValidator :=
  if requested ≠ TokenValidator.UNKNOWN ∧ requested.str ≠ "" then requested else dflt

/-- Lines 155-163 of the server: the legacy DNS SAN derivation, a switch
on (namespace, workload id) against the current namespace, first match
wins, always one entry. -/
def deriveDNS (currentNamespace ns id : String) : List String :=
  if ns = currentNamespace ∧ id = "dapr-injector" then
    ["dapr-sidecar-injector." ++ ns ++ ".svc"]
  else if ns = currentNamespace ∧ id = "dapr-operator" then
    ["dapr-webhook." ++ ns ++ ".svc"]
  else
    [id ++ "." ++ ns ++ ".svc.cluster.local"]

/-- The `ca.SignRequest` assembled at lines 165-172 from the parsed CSR,
the validator's trust domain and the request fields. -/
def mkSignRequest (deps : Deps) (req : SignCertificateRequest)
    (trustDomain : String) (csr : CertificateRequest) : SignRequest :=
  { PublicKey := csr.PublicKey
    SignatureAlgorithm := csr.SignatureAlgorithm
    TrustDomain := trustDomain
    Namespace := req.Namespace
    AppID := req.Id
    DNS := deriveDNS deps.currentNamespace req.Namespace req.Id }

/-- Lines 165-190 of the server: call the certificate authority, encode
the resulting chain, and assemble the response; `chain[0]` is indexed
without an emptiness check, so a nil-error empty chain panics. -/
def signAndRespond (deps : Deps) (s : Server) (req : SignCertificateRequest)
    (trustDomain : String) (csr : CertificateRequest) (evs : List CallEvent) :
    Outcome × List CallEvent :=
  let sreq := mkSignRequest deps req trustDomain csr
  let evs := evs ++ [CallEvent.caSign sreq]
  match s.ca.SignIdentity sreq with
  | Except.error _ => (Outcome.err Code.Internal "failed to sign certificate", evs)
  | Except.ok chain =>
    match deps.encodeX509Chain chain with
    | Except.error _ => (Outcome.err Code.Internal "failed to encode certificate chain", evs)
    | Except.ok chainPEM =>
      match chain with
      | [] => (Outcome.panicked "runtime error: index out of range [0] with length 0", evs)
      | c0 :: _ =>
        (Outcome.ok
          { WorkloadCertificate := chainPEM
            TrustChainCertificates := [s.ca.TrustAnchors]
            ValidUntil := c0.NotAfter }, evs)

/-- Lines 128-163 of the server: decode the CSR bytes as PEM, check the
block type, parse the PKCS#10 request, verify its self-signature, then
hand over to the signing step. -/
def processCSR (deps : Deps) (s : Server) (req : SignCertificateRequest)
    (validator : TokenValidator) (trustDomain : String) :
    Outcome × List CallEvent :=
  let evs := [CallEvent.validateCall validator]
  match deps.pemDecode req.CertificateSigningRequest with
  | none => (Outcome.err Code.InvalidArgument "invalid certificate signing request", evs)
  | some der =>
    if der.blockType ≠ "CERTIFICATE REQUEST" ∧ der.blockType ≠ "CERTIFICATE" then
      (Outcome.err Code.InvalidArgument "invalid certificate signing request", evs)
    else
      match deps.parseCertificateRequest der.blockBytes with
      | Except.error e =>
        (Outcome.err Code.InvalidArgument
          ("failed to parse certificate signing request: " ++ e), evs)
      | Except.ok csr =>
        if (deps.checkSignature csr).isSome then
          (Outcome.err Code.InvalidArgument "invalid signature", evs)
        else
          signAndRespond deps s req trustDomain csr evs

/-- Lines 109-191 of the server, `signCertificate`: resolve the effective
validator kind, look it up in the map, authenticate, then process the CSR
and sign. -/
def signCertificate (deps : Deps) (s : Server) (req : SignCertificateRequest) :
    Outcome × List CallEvent :=
  let validator := resolveValidator s.defaultValidator req.TokenValidator
  if validator = TokenValidator.UNKNOWN then
    (Outcome.err Code.InvalidArgument
      "a validator name must be specified in this environment", [])
  else
    match s.vals.lookup validator with
    | none => (Outcome.err Code.InvalidArgument "the requested validator is not enabled", [])
    | some v =>
      match v.Validate req with
      | Except.error e =>
        (Outcome.err Code.PermissionDenied e, [CallEvent.validateCall validator])
      | Except.ok trustDomain => processCSR deps s req validator trustDomain

/-- Monitoring counter events of the `SignCertificate` dispatcher. -/
inductive MonEvent where
  | received
  | succeeded
  | failed (reason : String)
  deriving DecidableEq, Repr

/-- Lines 98-107 of the server, the `SignCertificate` gRPC method:
increment the received counter, run the pipeline, and increment exactly
one of the succeeded counter or the failed counter with the fixed reason
string "sign"; a panic propagates before any exit counter fires. -/
def SignCertificate (deps : Deps) (s : Server) (req : SignCertificateRequest) :
    Outcome × List CallEvent × List MonEvent :=
  let r := signCertificate deps s req
  match r.1 with
  | Outcome.ok _ => (r.1, r.2, [MonEvent.received, MonEvent.succeeded])
  | Outcome.err _ _ => (r.1, r.2, [MonEvent.received, MonEvent.failed "sign"])
  | Outcome.panicked _ => (r.1, r.2, [MonEvent.received])

/-- Number of `caSign` events in a trace. -/
def countCASign (evs : List CallEvent) : Nat :=
  evs.countP fun e => match e with | CallEvent.caSign _ => true | _ => false

/-- Number of `validateCall` events in a trace. -/
def countValidate (evs : List CallEvent) : Nat :=
  evs.countP fun e => match e with | CallEvent.validateCall _ => true | _ => false

/-- Number of `received` monitoring events. -/
def countReceived (evs : List MonEvent) : Nat :=
  evs.countP fun e => match e with | MonEvent.received => true | _ => false

/-- Number of `succeeded` monitoring events. -/
def countSucceeded (evs : List MonEvent) : Nat :=
  evs.countP fun e => match e with | MonEvent.succeeded => true | _ => false

/-- Number of `failed` monitoring events. -/
def countFailed (evs : List MonEvent) : Nat :=
  evs.countP fun e => match e with | MonEvent.failed _ => true | _ => false

end Sentry

namespace RuntimeSecurity

/-- `credentials.CertChain`: root CA, certificate chain and key bytes. -/
structure CertChain where
  RootCA : String
  Cert : String
  Key : String
  deriving DecidableEq, Repr

/-- The three environment variables read by `GetCertChain`. -/
structure Env where
  trustAnchorsVar : String
  certChainVar : String
  certKeyVar : String
  deriving DecidableEq, Repr

/-- `src/pkg/runtime/security/security.go` lines 35-53, `GetCertChain`:
read the trust anchors, cert chain and key environment variables; the
third guard re-tests `cert` instead of `key` (faithful to the source). -/
def GetCertChain (env : Env) : Except String CertChain :=
  let trustAnchors := env.trustAnchorsVar
  if trustAnchors = "" then
    Except.error "couldn't find trust anchors in environment variable DAPR_TRUST_ANCHORS"
  else
    let cert := env.certChainVar
    if cert = "" then
      Except.error "couldn't find cert chain in environment variable DAPR_CERT_CHAIN"
    else
      let key := env.certKeyVar
      if cert = "" then
        Except.error "couldn't find cert key in environment variable DAPR_CERT_KEY"
      else
        Except.ok { RootCA := trustAnchors, Cert := cert, Key := key }

end RuntimeSecurity

namespace Sentry

/-- Concrete dependency record for running the pipeline on concrete
inputs: byte string `[]` fails PEM decoding, `[2]` decodes to a block of
type `"JUNK"`, `[3]` decodes to a request-typed block whose bytes fail
PKCS#10 parsing, `[4]` decodes and parses to a request whose
self-signature check fails, and any other byte string decodes and parses
cleanly; encoding fails exactly on chains of length two. -/
def testDeps : Deps :=
  { currentNamespace := "dapr-system"
    pemDecode := fun bs =>
      if bs = [] then none
      else if bs = [2] then some { blockType := "JUNK", blockBytes := bs }
      else some { blockType := "CERTIFICATE REQUEST", blockBytes := bs }
    parseCertificateRequest := fun bs =>
      if bs = [3] then Except.error "asn1: structure error"
      else Except.ok { PublicKey := bs, SignatureAlgorithm := 1 }
    checkSignature := fun csr => if csr.PublicKey = [4] then some "verification error" else none
    encodeX509Chain := fun chain =>
      if chain.length = 2 then Except.error "encode failure" else Except.ok [7] }

/-- A validator that accepts every request with trust domain `"public"`. -/
def valOK : Validator := { Validate := fun _ => Except.ok "public" }

/-- A validator that rejects every request. -/
def valReject : Validator := { Validate := fun _ => Except.error "token rejected" }

/-- A certificate authority that issues a single leaf expiring at 1000. -/
def caOK : CASigner := { SignIdentity := fun _ => Except.ok [{ NotAfter := 1000 }], TrustAnchors := [5] }

/-- A certificate authority whose signing always fails. -/
def caErr : CASigner := { SignIdentity := fun _ => Except.error "hsm down", TrustAnchors := [5] }

/-- A certificate authority that returns an empty chain with nil error. -/
def caEmpty : CASigner := { SignIdentity := fun _ => Except.ok [], TrustAnchors := [5] }

/-- A certificate authority that returns a two-certificate chain. -/
def caTwo : CASigner :=
  { SignIdentity := fun _ => Except.ok [{ NotAfter := 1000 }, { NotAfter := 2000 }]
    TrustAnchors := [5] }

/-- A server with one accepting JWKS validator and the given CA. -/
def mkServer (c : CASigner) : Server :=
  { vals := [(TokenValidator.JWKS, valOK)], defaultValidator := TokenValidator.JWKS, ca := c }

/-- A server whose only validator rejects every request. -/
def srvReject : Server :=
  { vals := [(TokenValidator.JWKS, valReject)], defaultValidator := TokenValidator.JWKS, ca := caOK }

/-- A server whose default validator kind is the `UNKNOWN` sentinel. -/
def srvUnknown : Server :=
  { vals := [(TokenValidator.JWKS, valOK)], defaultValidator := TokenValidator.UNKNOWN, ca := caOK }

/-- A server with an empty validator map. -/
def srvEmptyVals : Server :=
  { vals := [], defaultValidator := TokenValidator.JWKS, ca := caOK }

/-- A well-formed request (CSR bytes `[1]` decode and parse cleanly under
`testDeps`), leaving the validator kind unspecified. -/
def reqGood : SignCertificateRequest :=
  { Id := "myapp", Namespace := "default", CertificateSigningRequest := [1]
    TokenValidator := TokenValidator.UNKNOWN }

/-- Like `reqGood` but explicitly requesting the JWKS validator. -/
def reqJWKS : SignCertificateRequest :=
  { Id := "myapp", Namespace := "default", CertificateSigningRequest := [1]
    TokenValidator := TokenValidator.JWKS }

/-- A request whose CSR bytes fail PEM decoding under `testDeps`. -/
def reqNoPem : SignCertificateRequest :=
  { Id := "myapp", Namespace := "default", CertificateSigningRequest := []
    TokenValidator := TokenValidator.UNKNOWN }

/-- A request whose CSR decodes to a PEM block of the wrong type under
`testDeps`. -/
def reqBadType : SignCertificateRequest :=
  { Id := "myapp", Namespace := "default", CertificateSigningRequest := [2]
    TokenValidator := TokenValidator.UNKNOWN }

/-- A request whose CSR bytes fail PKCS#10 parsing under `testDeps`. -/
def reqBadParse : SignCertificateRequest :=
  { Id := "myapp", Namespace := "default", CertificateSigningRequest := [3]
    TokenValidator := TokenValidator.UNKNOWN }

/-- A request whose parsed CSR fails the self-signature check under
`testDeps`. -/
def reqBadSig : SignCertificateRequest :=
  { Id := "myapp", Namespace := "default", CertificateSigningRequest := [4]
    TokenValidator := TokenValidator.UNKNOWN }

/-- The proto `String()` name of every validator kind is non-empty. -/
theorem TokenValidator.str_ne_empty (v : TokenValidator) : v.str ≠ "" := by
  cases v <;> simp [TokenValidator.str]

end Sentry

open Sentry RuntimeSecurity

/-- Helper: under successful resolution, lookup and authentication, the
pipeline reduces to the CSR-processing stage. -/
theorem signCertificate_reaches_csr (deps : Deps) (s : Server)
    (req : SignCertificateRequest) (k : TokenValidator) (v : Validator) (td : String)
    (hres : resolveValidator s.defaultValidator req.TokenValidator = k)
    (hk : k ≠ TokenValidator.UNKNOWN)
    (hlook : s.vals.lookup k = some v)
    (hval : v.Validate req = Except.ok td) :
    signCertificate deps s req = processCSR deps s req k td := by
  simp only [signCertificate]
  rw [hres, if_neg hk, hlook]
  simp only [hval]

/-- C4: SAN derivation is a pure deterministic function of
(namespace, workloadID, currentNamespace) producing exactly one entry:
`dapr-sidecar-injector.<ns>.svc` for the injector in the current
namespace, `dapr-webhook.<ns>.svc` for the operator in the current
namespace, and `<workloadID>.<ns>.svc.cluster.local` otherwise, first
match wins. -/
theorem c4_san_derivation (currentNamespace ns id : String) :
    (deriveDNS currentNamespace ns id).length = 1 ∧
    (ns = currentNamespace ∧ id = "dapr-injector" →
      deriveDNS currentNamespace ns id = ["dapr-sidecar-injector." ++ ns ++ ".svc"]) ∧
    (ns = currentNamespace ∧ id = "dapr-operator" →
      deriveDNS currentNamespace ns id = ["dapr-webhook." ++ ns ++ ".svc"]) ∧
    (¬(ns = currentNamespace ∧ id = "dapr-injector") →
      ¬(ns = currentNamespace ∧ id = "dapr-operator") →
      deriveDNS currentNamespace ns id = [id ++ "." ++ ns ++ ".svc.cluster.local"]) := by
  refine ⟨?_, ?_, ?_, ?_⟩
  · unfold deriveDNS
    split_ifs <;> rfl
  · intro h
    unfold deriveDNS
    rw [if_pos h]
  · intro h
    unfold deriveDNS
    rw [if_neg, if_pos h]
    rintro ⟨h1, h2⟩
    rw [h.2] at h2
    simp at h2
  · intro h1 h2
    unfold deriveDNS
    rw [if_neg h1, if_neg h2]

/-- Witness for C4 at the spec's two example inputs. -/
theorem c4_witness :
    deriveDNS "dapr-system" "dapr-system" "dapr-injector" =
      ["dapr-sidecar-injector.dapr-system.svc"] ∧
    deriveDNS "dapr-system" "default" "myapp" = ["myapp.default.svc.cluster.local"] := by
  constructor
  · have h := (c4_san_derivation "dapr-system" "dapr-system" "dapr-injector").2.1 ⟨rfl, rfl⟩
    simpa using h
  · have h := (c4_san_derivation "dapr-system" "default" "myapp").2.2.2
      (by simp) (by simp)
    simpa using h

/-- C10: `GetCertChain` never checks the key environment variable (the
cert-chain value is re-tested in its place): whenever trust anchors and
cert chain are non-empty it returns `ok` with whatever the key variable
holds, in particular an empty `Key` with no error. -/
theorem c10_get_cert_chain (env : Env)
    (hta : env.trustAnchorsVar ≠ "") (hcc : env.certChainVar ≠ "") :
    GetCertChain env =
      Except.ok { RootCA := env.trustAnchorsVar, Cert := env.certChainVar,
                  Key := env.certKeyVar } := by
  unfold GetCertChain
  rw [if_neg hta, if_neg hcc, if_neg hcc]

/-- Witness for C10: an environment with the key variable empty still
yields `ok` with an empty `Key`. -/
theorem c10_witness :
    GetCertChain { trustAnchorsVar := "anchors", certChainVar := "chain", certKeyVar := "" } =
      Except.ok { RootCA := "anchors", Cert := "chain", Key := "" } :=
  c10_get_cert_chain
    { trustAnchorsVar := "anchors", certChainVar := "chain", certKeyVar := "" }
    (by simp) (by simp)

/-- C2: the effective validator kind is the requested one when that is not
the `UNKNOWN` sentinel, and the configured default otherwise; when the
effective kind is still `UNKNOWN`, or no validator is registered under it,
`signCertificate` returns `InvalidArgument` with an empty call trace (no
validator and no CSR work has occurred). -/
theorem c2_validator_resolution (deps : Deps) (s : Server)
    (req : SignCertificateRequest) :
    (req.TokenValidator ≠ TokenValidator.UNKNOWN →
      resolveValidator s.defaultValidator req.TokenValidator = req.TokenValidator) ∧
    (req.TokenValidator = TokenValidator.UNKNOWN →
      resolveValidator s.defaultValidator req.TokenValidator = s.defaultValidator) ∧
    (resolveValidator s.defaultValidator req.TokenValidator = TokenValidator.UNKNOWN →
      signCertificate deps s req =
        (Outcome.err Code.InvalidArgument
          "a validator name must be specified in this environment", [])) ∧
    (∀ k, resolveValidator s.defaultValidator req.TokenValidator = k →
      k ≠ TokenValidator.UNKNOWN → s.vals.lookup k = none →
      signCertificate deps s req =
        (Outcome.err Code.InvalidArgument "the requested validator is not enabled", [])) := by
  refine ⟨?_, ?_, ?_, ?_⟩
  · intro h
    unfold resolveValidator
    rw [if_pos ⟨h, TokenValidator.str_ne_empty _⟩]
  · intro h
    unfold resolveValidator
    rw [if_neg]
    rintro ⟨h1, _⟩
    exact h1 h
  · intro h
    simp only [signCertificate]
    rw [h, if_pos rfl]
  · intro k hres hk hlook
    simp only [signCertificate]
    rw [hres, if_neg hk, hlook]

/-- Witness for C2: an explicit JWKS request keeps its kind; an
unspecified kind falls back to the default; an empty registry yields the
`InvalidArgument` error with an empty trace. -/
theorem c2_witness :
    resolveValidator (mkServer caOK).defaultValidator reqJWKS.TokenValidator =
      reqJWKS.TokenValidator ∧
    resolveValidator srvEmptyVals.defaultValidator reqGood.TokenValidator =
      srvEmptyVals.defaultValidator ∧
    signCertificate testDeps srvEmptyVals reqGood =
      (Outcome.err Code.InvalidArgument "the requested validator is not enabled", []) :=
  ⟨(c2_validator_resolution testDeps (mkServer caOK) reqJWKS).1 (by decide),
   (c2_validator_resolution testDeps srvEmptyVals reqGood).2.1 rfl,
   (c2_validator_resolution testDeps srvEmptyVals reqGood).2.2.2
     TokenValidator.JWKS (by decide) (by decide) rfl⟩

/-- C3: when the resolved validator rejects the request, the result is
`PermissionDenied` carrying the validator's own error message; the trace
has exactly one `Validate` call and no certificate-authority call (no
retry, no fallback, `SignIdentity` never invoked). -/
theorem c3_validator_reject (deps : Deps) (s : Server) (req : SignCertificateRequest)
    (k : TokenValidator) (v : Validator) (e : String)
    (hres : resolveValidator s.defaultValidator req.TokenValidator = k)
    (hk : k ≠ TokenValidator.UNKNOWN)
    (hlook : s.vals.lookup k = some v)
    (hval : v.Validate req = Except.error e) :
    signCertificate deps s req =
      (Outcome.err Code.PermissionDenied e, [CallEvent.validateCall k]) ∧
    countCASign (signCertificate deps s req).2 = 0 ∧
    countValidate (signCertificate deps s req).2 = 1 := by
  have h : signCertificate deps s req =
      (Outcome.err Code.PermissionDenied e, [CallEvent.validateCall k]) := by
    simp only [signCertificate]
    rw [hres, if_neg hk, hlook]
    simp only [hval]
  refine ⟨h, ?_, ?_⟩ <;> rw [h] <;> rfl

/-- Witness for C3 at a server whose validator rejects every request. -/
theorem c3_witness :
    signCertificate testDeps srvReject reqGood =
      (Outcome.err Code.PermissionDenied "token rejected",
        [CallEvent.validateCall TokenValidator.JWKS]) ∧
    countCASign (signCertificate testDeps srvReject reqGood).2 = 0 ∧
    countValidate (signCertificate testDeps srvReject reqGood).2 = 1 :=
  c3_validator_reject testDeps srvReject reqGood TokenValidator.JWKS valReject
    "token rejected" (by decide) (by decide) rfl rfl

/-- C1: after successful authentication, each of the four CSR failure
modes (no PEM block; wrong block type; PKCS#10 parse failure, whose error
text is appended to the message; failing self-signature check, with the
generic "invalid signature" message) yields `InvalidArgument`, and the
trace contains no `caSign` event: the certificate authority is never
invoked. -/
theorem c1_csr_rejection (deps : Deps) (s : Server) (req : SignCertificateRequest)
    (k : TokenValidator) (v : Validator) (td : String)
    (hres : resolveValidator s.defaultValidator req.TokenValidator = k)
    (hk : k ≠ TokenValidator.UNKNOWN)
    (hlook : s.vals.lookup k = some v)
    (hval : v.Validate req = Except.ok td) :
    (deps.pemDecode req.CertificateSigningRequest = none →
      signCertificate deps s req =
        (Outcome.err Code.InvalidArgument "invalid certificate signing request",
          [CallEvent.validateCall k])) ∧
    (∀ der, deps.pemDecode req.CertificateSigningRequest = some der →
      der.blockType ≠ "CERTIFICATE REQUEST" → der.blockType ≠ "CERTIFICATE" →
      signCertificate deps s req =
        (Outcome.err Code.InvalidArgument "invalid certificate signing request",
          [CallEvent.validateCall k])) ∧
    (∀ der e, deps.pemDecode req.CertificateSigningRequest = some der →
      (der.blockType = "CERTIFICATE REQUEST" ∨ der.blockType = "CERTIFICATE") →
      deps.parseCertificateRequest der.blockBytes = Except.error e →
      signCertificate deps s req =
        (Outcome.err Code.InvalidArgument
          ("failed to parse certificate signing request: " ++ e),
          [CallEvent.validateCall k])) ∧
    (∀ der csr, deps.pemDecode req.CertificateSigningRequest = some der →
      (der.blockType = "CERTIFICATE REQUEST" ∨ der.blockType = "CERTIFICATE") →
      deps.parseCertificateRequest der.blockBytes = Except.ok csr →
      (deps.checkSignature csr).isSome = true →
      signCertificate deps s req =
        (Outcome.err Code.InvalidArgument "invalid signature",
          [CallEvent.validateCall k])) := by
  have hcsr := signCertificate_reaches_csr deps s req k v td hres hk hlook hval
  refine ⟨?_, ?_, ?_, ?_⟩
  · intro hdec
    rw [hcsr]
    simp only [processCSR, hdec]
  · intro der hdec h1 h2
    rw [hcsr]
    simp only [processCSR, hdec]
    rw [if_pos ⟨h1, h2⟩]
  · intro der e hdec hty hparse
    have hty2 : ¬(der.blockType ≠ "CERTIFICATE REQUEST" ∧ der.blockType ≠ "CERTIFICATE") := by
      rcases hty with h | h <;> simp [h]
    rw [hcsr]
    simp only [processCSR, hdec]
    rw [if_neg hty2]
    simp only [hparse]
  · intro der csr hdec hty hparse hsig
    have hty2 : ¬(der.blockType ≠ "CERTIFICATE REQUEST" ∧ der.blockType ≠ "CERTIFICATE") := by
      rcases hty with h | h <;> simp [h]
    rw [hcsr]
    simp only [processCSR, hdec]
    rw [if_neg hty2]
    simp only [hparse]
    rw [if_pos hsig]

/-- Witness for C1: the four failure modes on concrete requests under
`testDeps`. -/
theorem c1_witness :
    signCertificate testDeps (mkServer caOK) reqNoPem =
      (Outcome.err Code.InvalidArgument "invalid certificate signing request",
        [CallEvent.validateCall TokenValidator.JWKS]) ∧
    signCertificate testDeps (mkServer caOK) reqBadType =
      (Outcome.err Code.InvalidArgument "invalid certificate signing request",
        [CallEvent.validateCall TokenValidator.JWKS]) ∧
    signCertificate testDeps (mkServer caOK) reqBadParse =
      (Outcome.err Code.InvalidArgument
        ("failed to parse certificate signing request: " ++ "asn1: structure error"),
        [CallEvent.validateCall TokenValidator.JWKS]) ∧
    signCertificate testDeps (mkServer caOK) reqBadSig =
      (Outcome.err Code.InvalidArgument "invalid signature",
        [CallEvent.validateCall TokenValidator.JWKS]) :=
  ⟨(c1_csr_rejection testDeps (mkServer caOK) reqNoPem TokenValidator.JWKS valOK
      "public" (by decide) (by decide) rfl rfl).1 rfl,
   (c1_csr_rejection testDeps (mkServer caOK) reqBadType TokenValidator.JWKS valOK
      "public" (by decide) (by decide) rfl rfl).2.1
      { blockType := "JUNK", blockBytes := [2] } rfl (by decide) (by decide),
   (c1_csr_rejection testDeps (mkServer caOK) reqBadParse TokenValidator.JWKS valOK
      "public" (by decide) (by decide) rfl rfl).2.2.1
      { blockType := "CERTIFICATE REQUEST", blockBytes := [3] } "asn1: structure error"
      rfl (Or.inl rfl) rfl,
   (c1_csr_rejection testDeps (mkServer caOK) reqBadSig TokenValidator.JWKS valOK
      "public" (by decide) (by decide) rfl rfl).2.2.2
      { blockType := "CERTIFICATE REQUEST", blockBytes := [4] }
      { PublicKey := [4], SignatureAlgorithm := 1 }
      rfl (Or.inl rfl) rfl rfl⟩

/-- Helper: when resolution, lookup, authentication and all four CSR
checks succeed, the pipeline reduces to the signing step. -/
theorem signCertificate_reaches_sign (deps : Deps) (s : Server)
    (req : SignCertificateRequest) (k : TokenValidator) (v : Validator)
    (td : String) (der : PemBlock) (csr : CertificateRequest)
    (hres : resolveValidator s.defaultValidator req.TokenValidator = k)
    (hk : k ≠ TokenValidator.UNKNOWN)
    (hlook : s.vals.lookup k = some v)
    (hval : v.Validate req = Except.ok td)
    (hdec : deps.pemDecode req.CertificateSigningRequest = some der)
    (hty : der.blockType = "CERTIFICATE REQUEST" ∨ der.blockType = "CERTIFICATE")
    (hparse : deps.parseCertificateRequest der.blockBytes = Except.ok csr)
    (hsig : deps.checkSignature csr = none) :
    signCertificate deps s req =
      signAndRespond deps s req td csr [CallEvent.validateCall k] := by
  have hty2 : ¬(der.blockType ≠ "CERTIFICATE REQUEST" ∧ der.blockType ≠ "CERTIFICATE") := by
    rcases hty with h | h <;> simp [h]
  have hs : ¬((deps.checkSignature csr).isSome = true) := by simp [hsig]
  rw [signCertificate_reaches_csr deps s req k v td hres hk hlook hval]
  simp only [processCSR, hdec]
  rw [if_neg hty2]
  simp only [hparse]
  rw [if_neg hs]

/-- C5: on every successful invocation the response's `ValidUntil` equals
the `NotAfter` expiry of `chain[0]`, the head of the chain returned by the
certificate authority, for any chain of length at least one. -/
theorem c5_valid_until (deps : Deps) (s : Server) (req : SignCertificateRequest)
    (k : TokenValidator) (v : Validator) (td : String) (der : PemBlock)
    (csr : CertificateRequest) (c0 : Cert) (rest : List Cert) (chainPEM : List Nat)
    (hres : resolveValidator s.defaultValidator req.TokenValidator = k)
    (hk : k ≠ TokenValidator.UNKNOWN)
    (hlook : s.vals.lookup k = some v)
    (hval : v.Validate req = Except.ok td)
    (hdec : deps.pemDecode req.CertificateSigningRequest = some der)
    (hty : der.blockType = "CERTIFICATE REQUEST" ∨ der.blockType = "CERTIFICATE")
    (hparse : deps.parseCertificateRequest der.blockBytes = Except.ok csr)
    (hsig : deps.checkSignature csr = none)
    (hsign : s.ca.SignIdentity (mkSignRequest deps req td csr) = Except.ok (c0 :: rest))
    (henc : deps.encodeX509Chain (c0 :: rest) = Except.ok chainPEM) :
    signCertificate deps s req =
      (Outcome.ok
        { WorkloadCertificate := chainPEM
          TrustChainCertificates := [s.ca.TrustAnchors]
          ValidUntil := c0.NotAfter },
        [CallEvent.validateCall k, CallEvent.caSign (mkSignRequest deps req td csr)]) := by
  rw [signCertificate_reaches_sign deps s req k v td der csr hres hk hlook hval
    hdec hty hparse hsig]
  simp only [signAndRespond, hsign, henc, List.cons_append, List.nil_append]

/-- Witness for C5: a concrete successful run whose response carries the
leaf expiry 1000 of the one-certificate chain issued by `caOK`. -/
theorem c5_witness :
    signCertificate testDeps (mkServer caOK) reqGood =
      (Outcome.ok
        { WorkloadCertificate := [7]
          TrustChainCertificates := [[5]]
          ValidUntil := (1000 : Int) },
        [CallEvent.validateCall TokenValidator.JWKS,
         CallEvent.caSign (mkSignRequest testDeps reqGood "public"
           { PublicKey := [1], SignatureAlgorithm := 1 })]) :=
  c5_valid_until testDeps (mkServer caOK) reqGood TokenValidator.JWKS valOK "public"
    { blockType := "CERTIFICATE REQUEST", blockBytes := [1] }
    { PublicKey := [1], SignatureAlgorithm := 1 }
    { NotAfter := 1000 } [] [7]
    (by decide) (by decide) rfl rfl rfl (Or.inl rfl) rfl rfl rfl rfl

/-- C6: a certificate-authority signing failure yields exactly
`Internal` with the fixed message "failed to sign certificate", and a
chain-encoding failure yields exactly `Internal` with the fixed message
"failed to encode certificate chain"; in both cases the outcome carries no
response and the message is a literal independent of the underlying error
text. -/
theorem c6_internal_errors (deps : Deps) (s : Server) (req : SignCertificateRequest)
    (k : TokenValidator) (v : Validator) (td : String) (der : PemBlock)
    (csr : CertificateRequest)
    (hres : resolveValidator s.defaultValidator req.TokenValidator = k)
    (hk : k ≠ TokenValidator.UNKNOWN)
    (hlook : s.vals.lookup k = some v)
    (hval : v.Validate req = Except.ok td)
    (hdec : deps.pemDecode req.CertificateSigningRequest = some der)
    (hty : der.blockType = "CERTIFICATE REQUEST" ∨ der.blockType = "CERTIFICATE")
    (hparse : deps.parseCertificateRequest der.blockBytes = Except.ok csr)
    (hsig : deps.checkSignature csr = none) :
    (∀ e, s.ca.SignIdentity (mkSignRequest deps req td csr) = Except.error e →
      signCertificate deps s req =
        (Outcome.err Code.Internal "failed to sign certificate",
          [CallEvent.validateCall k,
           CallEvent.caSign (mkSignRequest deps req td csr)])) ∧
    (∀ chain e, s.ca.SignIdentity (mkSignRequest deps req td csr) = Except.ok chain →
      deps.encodeX509Chain chain = Except.error e →
      signCertificate deps s req =
        (Outcome.err Code.Internal "failed to encode certificate chain",
          [CallEvent.validateCall k,
           CallEvent.caSign (mkSignRequest deps req td csr)])) := by
  have hmain := signCertificate_reaches_sign deps s req k v td der csr hres hk hlook
    hval hdec hty hparse hsig
  constructor
  · intro e hsign
    rw [hmain]
    simp only [signAndRespond, hsign, List.cons_append, List.nil_append]
  · intro chain e hsign henc
    rw [hmain]
    simp only [signAndRespond, hsign, henc, List.cons_append, List.nil_append]

/-- Witness for C6: concrete runs against a failing-signer CA and against
a CA whose two-certificate chain fails encoding under `testDeps`. -/
theorem c6_witness :
    signCertificate testDeps (mkServer caErr) reqGood =
      (Outcome.err Code.Internal "failed to sign certificate",
        [CallEvent.validateCall TokenValidator.JWKS,
         CallEvent.caSign (mkSignRequest testDeps reqGood "public"
           { PublicKey := [1], SignatureAlgorithm := 1 })]) ∧
    signCertificate testDeps (mkServer caTwo) reqGood =
      (Outcome.err Code.Internal "failed to encode certificate chain",
        [CallEvent.validateCall TokenValidator.JWKS,
         CallEvent.caSign (mkSignRequest testDeps reqGood "public"
           { PublicKey := [1], SignatureAlgorithm := 1 })]) :=
  ⟨(c6_internal_errors testDeps (mkServer caErr) reqGood TokenValidator.JWKS valOK
      "public" { blockType := "CERTIFICATE REQUEST", blockBytes := [1] }
      { PublicKey := [1], SignatureAlgorithm := 1 }
      (by decide) (by decide) rfl rfl rfl (Or.inl rfl) rfl rfl).1 "hsm down" rfl,
   (c6_internal_errors testDeps (mkServer caTwo) reqGood TokenValidator.JWKS valOK
      "public" { blockType := "CERTIFICATE REQUEST", blockBytes := [1] }
      { PublicKey := [1], SignatureAlgorithm := 1 }
      (by decide) (by decide) rfl rfl rfl (Or.inl rfl) rfl rfl).2
      [{ NotAfter := 1000 }, { NotAfter := 2000 }] "encode failure" rfl rfl⟩

/-- C9: the success path indexes `chain[0]` without an emptiness check:
when the certificate authority returns a nil-error empty chain and
encoding succeeds, the invocation ends in an out-of-range panic — no
error branch exists for that case. -/
theorem c9_empty_chain_panic (deps : Deps) (s : Server) (req : SignCertificateRequest)
    (k : TokenValidator) (v : Validator) (td : String) (der : PemBlock)
    (csr : CertificateRequest) (bs : List Nat)
    (hres : resolveValidator s.defaultValidator req.TokenValidator = k)
    (hk : k ≠ TokenValidator.UNKNOWN)
    (hlook : s.vals.lookup k = some v)
    (hval : v.Validate req = Except.ok td)
    (hdec : deps.pemDecode req.CertificateSigningRequest = some der)
    (hty : der.blockType = "CERTIFICATE REQUEST" ∨ der.blockType = "CERTIFICATE")
    (hparse : deps.parseCertificateRequest der.blockBytes = Except.ok csr)
    (hsig : deps.checkSignature csr = none)
    (hsign : s.ca.SignIdentity (mkSignRequest deps req td csr) = Except.ok [])
    (henc : deps.encodeX509Chain [] = Except.ok bs) :
    signCertificate deps s req =
      (Outcome.panicked "runtime error: index out of range [0] with length 0",
        [CallEvent.validateCall k,
         CallEvent.caSign (mkSignRequest deps req td csr)]) := by
  rw [signCertificate_reaches_sign deps s req k v td der csr hres hk hlook hval
    hdec hty hparse hsig]
  simp only [signAndRespond, hsign, henc, List.cons_append, List.nil_append]

/-- Witness for C9: a concrete run against a CA returning an empty chain
with nil error ends in the out-of-range panic. -/
theorem c9_witness :
    signCertificate testDeps (mkServer caEmpty) reqGood =
      (Outcome.panicked "runtime error: index out of range [0] with length 0",
        [CallEvent.validateCall TokenValidator.JWKS,
         CallEvent.caSign (mkSignRequest testDeps reqGood "public"
           { PublicKey := [1], SignatureAlgorithm := 1 })]) :=
  c9_empty_chain_panic testDeps (mkServer caEmpty) reqGood TokenValidator.JWKS valOK
    "public" { blockType := "CERTIFICATE REQUEST", blockBytes := [1] }
    { PublicKey := [1], SignatureAlgorithm := 1 } [7]
    (by decide) (by decide) rfl rfl rfl (Or.inl rfl) rfl rfl rfl rfl

/-- Counterexample for C7: the two error branches are both
`InvalidArgument` but their messages differ, so they are distinguishable
by message text. -/
theorem c7_counterexample :
    (signCertificate testDeps srvUnknown reqGood).1 =
      Outcome.err Code.InvalidArgument
        "a validator name must be specified in this environment" ∧
    (signCertificate testDeps srvEmptyVals reqGood).1 =
      Outcome.err Code.InvalidArgument "the requested validator is not enabled" ∧
    ("a validator name must be specified in this environment" : String) ≠
      "the requested validator is not enabled" :=
  ⟨rfl, rfl, by decide⟩

/-- C7 (amended): both the unspecified-kind branch and the
unregistered-kind branch return `InvalidArgument` with a fixed literal
message that does not depend on the registry contents (so neither message
names the configured validator kinds), but the two messages are distinct
fixed strings, so the two cases are distinguishable by message text. -/
theorem c7_error_uniformity (deps : Deps) (s : Server)
    (req : SignCertificateRequest) :
    (resolveValidator s.defaultValidator req.TokenValidator = TokenValidator.UNKNOWN →
      (signCertificate deps s req).1 =
        Outcome.err Code.InvalidArgument
          "a validator name must be specified in this environment") ∧
    (∀ k, resolveValidator s.defaultValidator req.TokenValidator = k →
      k ≠ TokenValidator.UNKNOWN → s.vals.lookup k = none →
      (signCertificate deps s req).1 =
        Outcome.err Code.InvalidArgument "the requested validator is not enabled") := by
  constructor
  · intro h
    simp only [signCertificate]
    rw [h, if_pos rfl]
  · intro k hres hk hlook
    simp only [signCertificate]
    rw [hres, if_neg hk, hlook]

/-- Witness for C7 (amended) at the two concrete error branches. -/
theorem c7_witness :
    (signCertificate testDeps srvEmptyVals reqJWKS).1 =
      Outcome.err Code.InvalidArgument "the requested validator is not enabled" ∧
    (signCertificate testDeps srvUnknown reqNoPem).1 =
      Outcome.err Code.InvalidArgument
        "a validator name must be specified in this environment" :=
  ⟨(c7_error_uniformity testDeps srvEmptyVals reqJWKS).2 TokenValidator.JWKS
      (by decide) (by decide) rfl,
   (c7_error_uniformity testDeps srvUnknown reqNoPem).1 rfl⟩

/-- Counterexample for C8: a failure at the validator-resolution stage
(`InvalidArgument`, before any signing work) and a failure at the
certificate-authority stage (`Internal`) both increment the failed
counter with the same tag "sign" — the tag does not record the stage at
which the pipeline failed. -/
theorem c8_counterexample :
    (SignCertificate testDeps srvUnknown reqGood).1 =
      Outcome.err Code.InvalidArgument
        "a validator name must be specified in this environment" ∧
    (SignCertificate testDeps srvUnknown reqGood).2.2 =
      [MonEvent.received, MonEvent.failed "sign"] ∧
    (SignCertificate testDeps (mkServer caErr) reqGood).1 =
      Outcome.err Code.Internal "failed to sign certificate" ∧
    (SignCertificate testDeps (mkServer caErr) reqGood).2.2 =
      [MonEvent.received, MonEvent.failed "sign"] :=
  ⟨rfl, rfl, rfl, rfl⟩

/-- C8 (amended): every invocation of the dispatcher increments the
received counter exactly once; an invocation returning a response
additionally increments exactly the succeeded counter, an invocation
returning an error additionally increments exactly the failed counter
with the fixed tag "sign" regardless of the failing stage, and a
panicking invocation increments no exit counter. -/
theorem c8_monitoring (deps : Deps) (s : Server) (req : SignCertificateRequest) :
    countReceived (SignCertificate deps s req).2.2 = 1 ∧
    (∀ resp, (signCertificate deps s req).1 = Outcome.ok resp →
      (SignCertificate deps s req).2.2 = [MonEvent.received, MonEvent.succeeded]) ∧
    (∀ c m, (signCertificate deps s req).1 = Outcome.err c m →
      (SignCertificate deps s req).2.2 = [MonEvent.received, MonEvent.failed "sign"]) ∧
    (∀ m, (signCertificate deps s req).1 = Outcome.panicked m →
      (SignCertificate deps s req).2.2 = [MonEvent.received]) := by
  refine ⟨?_, ?_, ?_, ?_⟩
  · simp only [SignCertificate]
    rcases h : (signCertificate deps s req).1 with resp | ⟨c, m⟩ | m <;> rfl
  · intro resp h
    simp only [SignCertificate]
    rw [h]
  · intro c m h
    simp only [SignCertificate]
    rw [h]
  · intro m h
    simp only [SignCertificate]
    rw [h]

/-- Witness for C8 (amended): a concrete successful run increments
received once and exits through the succeeded counter. -/
theorem c8_witness :
    countReceived (SignCertificate testDeps (mkServer caOK) reqGood).2.2 = 1 ∧
    (SignCertificate testDeps (mkServer caOK) reqGood).2.2 =
      [MonEvent.received, MonEvent.succeeded] :=
  ⟨(c8_monitoring testDeps (mkServer caOK) reqGood).1,
   (c8_monitoring testDeps (mkServer caOK) reqGood).2.1
     { WorkloadCertificate := [7], TrustChainCertificates := [[5]]
       ValidUntil := (1000 : Int) } rfl⟩
